import Mathlib

/-!
Verification of the Ken Burns slideshow renderer (`server.js`).

The motion-path and compositing engine of the repository is shallowly
embedded below: JavaScript numbers are modelled by `ℚ` (with an explicit
`JSNumber` wrapper where NaN/±Infinity behaviour matters), the pure
helper functions (`clamp`, `getSafeDuration`, `getSafeZoom`,
`cubicBezier`, `buildBaseMetrics`, `getKenBurnsTransform`,
`normalizeTargetPoint`, `computeCropRect`, the per-frame sampler of
`generateFramesForImage`, and the fade-offset accounting of
`combineClips`) are translated definition-by-definition from the source,
and the claims of the specification are settled as theorems about these
definitions.
-/

namespace KenBurns

/-- The JS helper `clamp(value, min, max) = Math.min(Math.max(value, min), max)`
from server.js, on finite numbers. -/
def clamp (value lo hi : ℚ) : ℚ := min (max value lo) hi

/-- A JavaScript number after `Number(...)` coercion: a finite value, NaN,
or one of the two infinities. -/
inductive JSNumber where
  | finite (q : ℚ)
  | nan
  | posInf
  | negInf
deriving DecidableEq, Repr

/-- A JavaScript value as tested by `typeof v === 'number'`: either a number
or anything else (string, undefined, object, ...). -/
inductive JSValue where
  | num (v : JSNumber)
  | notNumber
deriving DecidableEq, Repr

/-- Constant `DEFAULT_DURATION = 6` from server.js. -/
def DEFAULT_DURATION : ℚ := 6

/-- Constant `DEFAULT_ZOOM = 1.8` from server.js. -/
def DEFAULT_ZOOM : ℚ := 9 / 5

/-- Constant `VIEWPORT_WIDTH = 1280` from server.js. -/
def VIEWPORT_WIDTH : ℚ := 1280

/-- Constant `VIEWPORT_HEIGHT = 720` from server.js. -/
def VIEWPORT_HEIGHT : ℚ := 720

/-- The predicate `Number.isFinite(parsed) && parsed > 0` on a coerced value. -/
def isFinitePositive : JSNumber → Bool
  | .finite q => decide (0 < q)
  | _ => false

/-- The function `getSafeDuration` from server.js: a finite positive number is
returned unchanged, everything else becomes `DEFAULT_DURATION`. -/
def getSafeDuration (value : JSNumber) : ℚ :=
  match value with
  | .finite q => if 0 < q then q else DEFAULT_DURATION
  | _ => DEFAULT_DURATION

/-- The function `getSafeZoom` from server.js: a finite positive number is
returned unchanged, everything else becomes `DEFAULT_ZOOM`. -/
def getSafeZoom (value : JSNumber) : ℚ :=
  match value with
  | .finite q => if 0 < q then q else DEFAULT_ZOOM
  | _ => DEFAULT_ZOOM

/-- `Math.max` on JS numbers: NaN absorbs, `+Infinity` dominates,
`-Infinity` is the identity. -/
def jsMax : JSNumber → JSNumber → JSNumber
  | .nan, _ => .nan
  | _, .nan => .nan
  | .posInf, _ => .posInf
  | _, .posInf => .posInf
  | .negInf, b => b
  | a, .negInf => a
  | .finite a, .finite b => .finite (max a b)

/-- `Math.min` on JS numbers: NaN absorbs, `-Infinity` dominates,
`+Infinity` is the identity. -/
def jsMin : JSNumber → JSNumber → JSNumber
  | .nan, _ => .nan
  | _, .nan => .nan
  | .negInf, _ => .negInf
  | _, .negInf => .negInf
  | .posInf, b => b
  | a, .posInf => a
  | .finite a, .finite b => .finite (min a b)

/-- The JS `clamp` on full JS numbers (used by `normalizeTargetPoint`, whose
input coordinates may be NaN or infinite). -/
def jsClamp (value lo hi : JSNumber) : JSNumber := jsMin (jsMax value lo) hi

/-- The function `normalizeTargetPoint` from server.js: a missing point or a
point with a non-`number` coordinate defaults to `{x: 50, y: 50}`; otherwise
each coordinate is clamped into `[0, 100]` with `Math.min`/`Math.max`. -/
def normalizeTargetPoint (targetPoint : Option (JSValue × JSValue)) :
    JSNumber × JSNumber :=
  match targetPoint with
  | none => (.finite 50, .finite 50)
  | some (x, y) =>
    match x, y with
    | .num vx, .num vy =>
        (jsClamp vx (.finite 0) (.finite 100), jsClamp vy (.finite 0) (.finite 100))
    | _, _ => (.finite 50, .finite 50)

/-- A normalized focus point coordinate is a finite number in `[0, 100]`. -/
def coordInRange : JSNumber → Prop
  | .finite q => 0 ≤ q ∧ q ≤ 100
  | _ => False

instance : DecidablePred coordInRange := fun v => by
  cases v <;> simp [coordInRange] <;> infer_instance

/-- The `ViewportMetrics` record produced by `buildBaseMetrics`. -/
structure Metrics where
  stageWidth : ℚ
  stageHeight : ℚ
  displayWidth : ℚ
  displayHeight : ℚ
  offsetX : ℚ
  offsetY : ℚ
  naturalWidth : ℚ
  naturalHeight : ℚ
  baseScale : ℚ
deriving DecidableEq, Repr

/-- The function `buildBaseMetrics` from server.js: aspect-fit scale of the
source into the fixed 1280x720 stage, with centering offsets. -/
def buildBaseMetrics (naturalWidth naturalHeight : ℚ) : Metrics :=
  let stageWidth := VIEWPORT_WIDTH
  let stageHeight := VIEWPORT_HEIGHT
  let baseScale := min (stageWidth / naturalWidth) (stageHeight / naturalHeight)
  let displayWidth := naturalWidth * baseScale
  let displayHeight := naturalHeight * baseScale
  { stageWidth := stageWidth
    stageHeight := stageHeight
    displayWidth := displayWidth
    displayHeight := displayHeight
    offsetX := (stageWidth - displayWidth) / 2
    offsetY := (stageHeight - displayHeight) / 2
    naturalWidth := naturalWidth
    naturalHeight := naturalHeight
    baseScale := baseScale }

/-- A focus point with both coordinates already numeric (the shape fed to
`getKenBurnsTransform` after `normalizeTargetPoint`). -/
structure Point where
  x : ℚ
  y : ℚ
deriving DecidableEq, Repr

/-- The numeric fields of the transform record returned by
`getKenBurnsTransform` (the CSS strings carry the same numbers). -/
structure Transform where
  translateX : ℚ
  translateY : ℚ
  originX : ℚ
  originY : ℚ
deriving DecidableEq, Repr

/-- The function `getKenBurnsTransform` from server.js: anchors the focus
point, and for `scale ≠ 1` centers it in the stage and then re-clamps the
translation so the scaled image stays flush with the stage edges. -/
def getKenBurnsTransform (targetPoint : Point) (metrics : Metrics) (scale : ℚ) :
    Transform :=
  if metrics.stageWidth = 0 ∨ metrics.stageHeight = 0 then
    { translateX := 0, translateY := 0
      originX := metrics.stageWidth / 2, originY := metrics.stageHeight / 2 }
  else
    let targetXOnImage := targetPoint.x / 100 * metrics.displayWidth
    let targetYOnImage := targetPoint.y / 100 * metrics.displayHeight
    let originX := metrics.offsetX + targetXOnImage
    let originY := metrics.offsetY + targetYOnImage
    if scale = 1 then
      { translateX := 0, translateY := 0, originX := originX, originY := originY }
    else
      let viewportCenterX := metrics.stageWidth / 2
      let viewportCenterY := metrics.stageHeight / 2
      let translateX := viewportCenterX - originX
      let translateY := viewportCenterY - originY
      let scaledTopLeftX := originX + (metrics.offsetX - originX) * scale + translateX
      let scaledTopLeftY := originY + (metrics.offsetY - originY) * scale + translateY
      let scaledWidth := metrics.displayWidth * scale
      let scaledHeight := metrics.displayHeight * scale
      let scaledBottomRightX := scaledTopLeftX + scaledWidth
      let scaledBottomRightY := scaledTopLeftY + scaledHeight
      let translateX := translateX -
        (if 0 < scaledTopLeftX then scaledTopLeftX else 0)
      let translateX := translateX +
        (if scaledBottomRightX < metrics.stageWidth then
          metrics.stageWidth - scaledBottomRightX else 0)
      let translateY := translateY -
        (if 0 < scaledTopLeftY then scaledTopLeftY else 0)
      let translateY := translateY +
        (if scaledBottomRightY < metrics.stageHeight then
          metrics.stageHeight - scaledBottomRightY else 0)
      { translateX := translateX, translateY := translateY
        originX := originX, originY := originY }

/-- A crop rectangle in source pixel space. -/
structure Rect where
  left : ℚ
  top : ℚ
  width : ℚ
  height : ℚ
deriving DecidableEq, Repr

/-- The function `computeCropRect` from server.js: inverts the stage-space
transform into a source-pixel crop rectangle and clamps `left`/`top` into
`[0, max 0 (natural − crop)]`. -/
def computeCropRect (transform : Transform) (metrics : Metrics) (scale : ℚ) :
    Rect :=
  let preTransformX := (-transform.translateX - (1 - scale) * transform.originX) / scale
  let preTransformY := (-transform.translateY - (1 - scale) * transform.originY) / scale
  let cropWidthStageSpace := metrics.stageWidth / scale
  let cropHeightStageSpace := metrics.stageHeight / scale
  let cropLeft := (preTransformX - metrics.offsetX) / metrics.baseScale
  let cropTop := (preTransformY - metrics.offsetY) / metrics.baseScale
  let cropWidth := cropWidthStageSpace / metrics.baseScale
  let cropHeight := cropHeightStageSpace / metrics.baseScale
  let maxLeft := max 0 (metrics.naturalWidth - cropWidth)
  let maxTop := max 0 (metrics.naturalHeight - cropHeight)
  { left := clamp cropLeft 0 maxLeft
    top := clamp cropTop 0 maxTop
    width := cropWidth
    height := cropHeight }

/-- The helper `interpolateRect` from `generateFramesForImage`: linear
interpolation of all four rectangle components by the same factor. -/
def interpolateRect (a b : Rect) (t : ℚ) : Rect :=
  { left := a.left + (b.left - a.left) * t
    top := a.top + (b.top - a.top) * t
    width := a.width + (b.width - a.width) * t
    height := a.height + (b.height - a.height) * t }

/-- The cubic term `sampleCurveX` of `cubicBezier` from server.js,
with coefficients `cx = 3 p1x`, `bx = 3 (p2x − p1x) − cx`, `ax = 1 − cx − bx`. -/
def sampleCurveX (p1x p2x t : ℚ) : ℚ :=
  let cx := 3 * p1x
  let bx := 3 * (p2x - p1x) - cx
  let ax := 1 - cx - bx
  ((ax * t + bx) * t + cx) * t

/-- The cubic term `sampleCurveY` of `cubicBezier` from server.js. -/
def sampleCurveY (p1y p2y t : ℚ) : ℚ :=
  let cy := 3 * p1y
  let bY := 3 * (p2y - p1y) - cy
  let ay := 1 - cy - bY
  ((ay * t + bY) * t + cy) * t

/-- The derivative term `sampleCurveDerivativeX` of `cubicBezier` from
server.js. -/
def sampleCurveDerivativeX (p1x p2x t : ℚ) : ℚ :=
  let cx := 3 * p1x
  let bx := 3 * (p2x - p1x) - cx
  let ax := 1 - cx - bx
  (3 * ax * t + 2 * bx) * t + cx

/-- The Newton-Raphson loop of `solveCurveX` from server.js, with the
remaining iteration count made explicit (the JS loop runs at most 8
iterations starting from `t0 = x`, returns early when `|sampleCurveX t0 − x|`
drops below `epsilon`, stops when the derivative magnitude drops below
`1e-6`, and returns the last iterate unchecked when the loop exhausts). -/
def solveCurveXAux (p1x p2x x epsilon : ℚ) : Nat → ℚ → ℚ
  | 0, t0 => t0
  | fuel + 1, t0 =>
    let x2 := sampleCurveX p1x p2x t0 - x
    if |x2| < epsilon then t0
    else
      let d2 := sampleCurveDerivativeX p1x p2x t0
      if |d2| < 1 / 1000000 then t0
      else solveCurveXAux p1x p2x x epsilon fuel (t0 - x2 / d2)

/-- The function `solveCurveX(x, epsilon)` from server.js. -/
def solveCurveX (p1x p2x x epsilon : ℚ) : ℚ :=
  solveCurveXAux p1x p2x x epsilon 8 x

/-- The easing closure returned by `cubicBezier(p1x, p1y, p2x, p2y)` from
server.js, evaluated at `x` with the solver tolerance `1e-6`. -/
def cubicBezier (p1x p1y p2x p2y x : ℚ) : ℚ :=
  sampleCurveY p1y p2y (solveCurveX p1x p2x x (1 / 1000000))

/-- The constant `easeInOut = cubicBezier(0.42, 0, 0.58, 1)` from server.js. -/
def easeInOut (x : ℚ) : ℚ :=
  cubicBezier (42 / 100) 0 (58 / 100) 1 x

/-- The per-frame zoom/crop sampler of `generateFramesForImage` from
server.js: for `ping-pong` the first half uses progress `t / 0.5`, the second
half uses progress `(1 − t) / 0.5` and swaps the start/end states; other
styles ease the raw normalized time. Returns `(currentZoom, cropRect)`. -/
def frameSample (motionStyle : String) (startZoom endZoom : ℚ)
    (startRect endRect : Rect) (normalized : ℚ) : ℚ × Rect :=
  if motionStyle = "ping-pong" then
    let forward := normalized ≤ 1 / 2
    let segmentProgress :=
      if forward then normalized / (1 / 2) else (1 - normalized) / (1 / 2)
    let easedProgress := easeInOut segmentProgress
    if forward then
      (startZoom + (endZoom - startZoom) * easedProgress,
        interpolateRect startRect endRect easedProgress)
    else
      (endZoom + (startZoom - endZoom) * easedProgress,
        interpolateRect endRect startRect easedProgress)
  else
    let easedProgress := easeInOut normalized
    (startZoom + (endZoom - startZoom) * easedProgress,
      interpolateRect startRect endRect easedProgress)

/-- The whole motion path of `generateFramesForImage` for one image, before
integer rounding: build metrics for the (working) dimensions, derive
start/end zoom from the motion style (`zoom-out` starts at the target zoom,
everything else ends there), project the start/end crop rectangles, and
sample at the normalized time. -/
def motionAt (naturalWidth naturalHeight targetZoom : ℚ) (targetPoint : Point)
    (motionStyle : String) (normalized : ℚ) : ℚ × Rect :=
  let metrics := buildBaseMetrics naturalWidth naturalHeight
  let startZoom := if motionStyle = "zoom-out" then targetZoom else 1
  let endZoom := if motionStyle = "zoom-out" then 1 else targetZoom
  let startTransform := getKenBurnsTransform targetPoint metrics startZoom
  let endTransform := getKenBurnsTransform targetPoint metrics endZoom
  let startRect := computeCropRect startTransform metrics startZoom
  let endRect := computeCropRect endTransform metrics endZoom
  frameSample motionStyle startZoom endZoom startRect endRect normalized

/-- Integer clamp, `clamp` from server.js applied to the already-rounded
integer pixel bounds. -/
def clampInt (value lo hi : ℤ) : ℤ := min (max value lo) hi

/-- The integer extraction region of `generateFramesForImage` from server.js:
floor the left/top, ceil the right/bottom of the interpolated crop rectangle,
clamp into the working raster, and derive width/height (minimum 1). Returns
`(left, top, width, height)`. -/
def extractRegion (cropRect : Rect) (workingWidth workingHeight : ℤ) :
    ℤ × ℤ × ℤ × ℤ :=
  let left := ⌊cropRect.left⌋
  let top := ⌊cropRect.top⌋
  let right := ⌈cropRect.left + cropRect.width⌉
  let bottom := ⌈cropRect.top + cropRect.height⌉
  let left := clampInt left 0 (max 0 (workingWidth - 1))
  let top := clampInt top 0 (max 0 (workingHeight - 1))
  let right := clampInt right (left + 1) workingWidth
  let bottom := clampInt bottom (top + 1) workingHeight
  (left, top, max 1 (right - left), max 1 (bottom - top))

/-- The per-image slice of the render plan consumed by `combineClips`:
`plan[i].config.duration` and `plan[i].config.fadeDuration`, both still raw
client values. -/
structure PlanEntry where
  duration : JSNumber
  fadeDuration : JSNumber
deriving DecidableEq, Repr

/-- Indexing `plan[i]?.config?.duration` past the end of the plan yields
`undefined`, which `Number(...)` coerces to NaN. -/
def planEntryD (plan : List PlanEntry) (i : Nat) : PlanEntry :=
  plan.getD i { duration := .nan, fadeDuration := .nan }

/-- The effective fade of `combineClips` from server.js: the raw
`fadeDuration` defaults to `0.5` unless it is a finite number `≥ 0`, then is
clamped into `[0, max 0 (min currentClipDuration nextClipDuration − 0.01)]`. -/
def effectiveFade (currentClipDuration nextClipDuration : ℚ)
    (rawFade : JSNumber) : ℚ :=
  let fade :=
    match rawFade with
    | .finite q => if 0 ≤ q then q else 1 / 2
    | _ => 1 / 2
  clamp fade 0 (max 0 (min currentClipDuration nextClipDuration - 1 / 100))

/-- The cross-fade accumulation loop of `combineClips` from server.js,
producing the `(fadeDuration, offset)` pair of every `xfade` filter in order
together with the final `runningOutputDuration`. The loop runs once per
adjacent clip pair (`steps = clipCount − 1`), reading `plan[i]` and
`plan[i+1]`. -/
def xfadeLoop (plan : List PlanEntry) : Nat → Nat → ℚ → List (ℚ × ℚ) × ℚ
  | _, 0, running => ([], running)
  | i, steps + 1, running =>
    let currentClipDuration := getSafeDuration (planEntryD plan i).duration
    let nextClipDuration := getSafeDuration (planEntryD plan (i + 1)).duration
    let fadeDuration :=
      effectiveFade currentClipDuration nextClipDuration
        (planEntryD plan i).fadeDuration
    let offset := max 0 (running - fadeDuration)
    let rest := xfadeLoop plan (i + 1) steps (running + (nextClipDuration - fadeDuration))
    ((fadeDuration, offset) :: rest.1, rest.2)

/-- The fade offsets computed by `combineClips` for `clipCount` clips:
`runningOutputDuration` starts at `plan[0]`'s sanitized duration (or 0 for an
empty plan) and the loop emits one `xfade` step per adjacent pair. -/
def combineOffsets (clipCount : Nat) (plan : List PlanEntry) :
    List (ℚ × ℚ) × ℚ :=
  let running :=
    if 0 < plan.length then getSafeDuration (planEntryD plan 0).duration else 0
  xfadeLoop plan 0 (clipCount - 1) running

/-- The observable outcome of `combineClips`: either the single input clip is
copied verbatim to the output, or an `xfade` filter graph is rendered. -/
inductive CombineResult where
  | copyVerbatim (source : String)
  | filterGraph (steps : List (ℚ × ℚ))
deriving DecidableEq, Repr

/-- The dispatch of `combineClips` from server.js: zero clips rejects with an
error and produces no output, one clip is copied verbatim with no filter
graph, and two or more clips go through the cross-fade filter chain. -/
def combineClips (clipPaths : List String) (plan : List PlanEntry) :
    Except String CombineResult :=
  match clipPaths with
  | [] => .error "No clips were generated to combine."
  | [c] => .ok (.copyVerbatim c)
  | _ => .ok (.filterGraph (combineOffsets clipPaths.length plan).1)

/-- The three-entry render plan with duration 6 and fadeDuration 0.5 used by
the compositor example of the specification. -/
def threeSixPlan : List PlanEntry :=
  List.replicate 3 { duration := .finite 6, fadeDuration := .finite (1 / 2) }

/-- Viewport metrics for a portrait 720x1280 source (aspect ratio 9:16,
narrower than the 16:9 stage). -/
def portraitMetrics : Metrics := buildBaseMetrics 720 1280

/-- The crop rectangle the projector returns for the portrait source at
center focus and zoom 1.5. -/
def portraitCropZoomed : Rect :=
  computeCropRect (getKenBurnsTransform ⟨50, 50⟩ portraitMetrics (3 / 2))
    portraitMetrics (3 / 2)

/-- The crop rectangle the projector returns for the portrait source at
center focus and zoom 1. -/
def portraitCropUnzoomed : Rect :=
  computeCropRect (getKenBurnsTransform ⟨50, 50⟩ portraitMetrics 1)
    portraitMetrics 1

/-! Theorems. -/

/-- C2, counterexample: for 3 clips of duration 6 with fadeDuration 0.5 the
fade offsets computed by `combineClips` are not `[5.5, 10.5]` as claimed (the
second offset is `11.0`: the running output duration after the first merge is
`6 + 6 − 0.5 = 11.5`, and `11.5 − 0.5 = 11`). -/
theorem combineOffsets_three_sixes_ne_claimed :
    (combineOffsets 3 threeSixPlan).1.map Prod.snd ≠ [11 / 2, 21 / 2] := by
  with_unfolding_all decide

/-- C2, amended: for 3 clips of duration 6 with fadeDuration 0.5, the
effective fades are `[0.5, 0.5]`, the fade offsets are `[5.5, 11.0]`, and the
final running output duration is `17.0`. -/
theorem combineOffsets_three_sixes :
    (combineOffsets 3 threeSixPlan).1.map Prod.fst = [1 / 2, 1 / 2] ∧
    (combineOffsets 3 threeSixPlan).1.map Prod.snd = [11 / 2, 11] ∧
    (combineOffsets 3 threeSixPlan).2 = 17 := by
  refine ⟨?_, ?_, ?_⟩ <;> with_unfolding_all decide

/-- C8: `combineClips` given zero clips fails with an error (no output
produced), and given exactly one clip copies that clip verbatim with no
cross-fade filter graph. -/
theorem combineClips_zero_and_one :
    (∀ plan, combineClips [] plan = .error "No clips were generated to combine.") ∧
    (∀ clip plan, combineClips [clip] plan = .ok (.copyVerbatim clip)) :=
  ⟨fun _ => rfl, fun _ _ => rfl⟩

/-- C9: `getSafeDuration` and `getSafeZoom` return every finite positive
value unchanged and substitute the defaults 6 and 1.8 for every other value
(zero, negatives, NaN and the infinities). -/
theorem getSafe_sanitizers (q : ℚ) (hq : 0 < q) :
    getSafeDuration (.finite q) = q ∧ getSafeZoom (.finite q) = q ∧
    (∀ r : ℚ, r ≤ 0 → getSafeDuration (.finite r) = 6 ∧ getSafeZoom (.finite r) = 9 / 5) ∧
    getSafeDuration .nan = 6 ∧ getSafeZoom .nan = 9 / 5 ∧
    getSafeDuration .posInf = 6 ∧ getSafeZoom .posInf = 9 / 5 ∧
    getSafeDuration .negInf = 6 ∧ getSafeZoom .negInf = 9 / 5 ∧
    DEFAULT_DURATION = 6 ∧ DEFAULT_ZOOM = 9 / 5 := by
  refine ⟨?_, ?_, fun r hr => ⟨?_, ?_⟩, rfl, rfl, rfl, rfl, rfl, rfl, rfl, rfl⟩
  · simp [getSafeDuration, hq]
  · simp [getSafeZoom, hq]
  · simp [getSafeDuration, DEFAULT_DURATION, not_lt.mpr hr]
  · simp [getSafeZoom, DEFAULT_ZOOM, not_lt.mpr hr]

/-- C9, witness: the sanitizer theorem applied at the finite positive value 3. -/
theorem getSafe_sanitizers_witness :
    getSafeDuration (.finite 3) = 3 ∧ getSafeDuration (.finite (-2)) = 6 :=
  ⟨(getSafe_sanitizers 3 (by norm_num)).1,
    ((getSafe_sanitizers 3 (by norm_num)).2.2.1 (-2) (by norm_num)).1⟩

/-- C10, counterexample: a focus point whose `x` coordinate is NaN is a JS
`number`, so `normalizeTargetPoint` does not replace it with the center; the
clamp propagates NaN and the resulting coordinate is not in `[0, 100]`. -/
theorem normalizeTargetPoint_nan_escapes :
    normalizeTargetPoint (some (.num .nan, .num (.finite 0))) = (.nan, .finite 0) ∧
    ¬ coordInRange (JSNumber.nan) := by
  exact ⟨by with_unfolding_all decide, fun h => h⟩

/-- C10, amended: `normalizeTargetPoint` defaults a missing point or a point
with a non-`number` coordinate to the center `(50, 50)`, clamps finite
numeric coordinates into `[0, 100]` (infinities clamp to the endpoints), and
therefore yields coordinates in `[0, 100]` for every input whose numeric
coordinates are not NaN; a NaN coordinate, however, passes through. -/
theorem normalizeTargetPoint_range (p : Option (JSValue × JSValue))
    (h : ∀ x y, p = some (x, y) → x ≠ .num .nan ∧ y ≠ .num .nan) :
    (coordInRange (normalizeTargetPoint p).1 ∧ coordInRange (normalizeTargetPoint p).2) ∧
    normalizeTargetPoint none = (.finite 50, .finite 50) ∧
    (∀ q1 q2 : ℚ, normalizeTargetPoint (some (.num (.finite q1), .num (.finite q2)))
      = (.finite (clamp q1 0 100), .finite (clamp q2 0 100))) ∧
    (∀ v, normalizeTargetPoint (some (.notNumber, v)) = (.finite 50, .finite 50)) ∧
    (∀ v, normalizeTargetPoint (some (v, .notNumber)) = (.finite 50, .finite 50)) := by
  refine ⟨?_, rfl, fun q1 q2 => rfl, fun v => rfl, fun v => by cases v <;> rfl⟩
  match p with
  | none => constructor <;> norm_num [normalizeTargetPoint, coordInRange]
  | some (x, y) =>
    obtain ⟨hx, hy⟩ := h x y rfl
    cases x with
    | notNumber => constructor <;> norm_num [normalizeTargetPoint, coordInRange]
    | num vx =>
      cases y with
      | notNumber => constructor <;> norm_num [normalizeTargetPoint, coordInRange]
      | num vy =>
        constructor
        · cases vx with
          | nan => exact absurd rfl hx
          | finite q =>
            simp only [normalizeTargetPoint, jsClamp, jsMax, jsMin, coordInRange]
            constructor
            · exact le_min (le_max_right q 0) (by norm_num)
            · exact min_le_right _ _
          | posInf =>
            simp only [normalizeTargetPoint, jsClamp, jsMax, jsMin, coordInRange]
            norm_num
          | negInf =>
            simp only [normalizeTargetPoint, jsClamp, jsMax, jsMin, coordInRange]
            norm_num
        · cases vy with
          | nan => exact absurd rfl hy
          | finite q =>
            cases vx <;>
              simp only [normalizeTargetPoint, jsClamp, jsMax, jsMin, coordInRange] <;>
              exact ⟨le_min (le_max_right q 0) (by norm_num), min_le_right _ _⟩
          | posInf =>
            cases vx <;>
              simp only [normalizeTargetPoint, jsClamp, jsMax, jsMin, coordInRange] <;>
              norm_num
          | negInf =>
            cases vx <;>
              simp only [normalizeTargetPoint, jsClamp, jsMax, jsMin, coordInRange] <;>
              norm_num

/-- C10, witness: the amended theorem applied to the in-range point (30, 200):
both normalized coordinates land in `[0, 100]`. -/
theorem normalizeTargetPoint_range_witness :
    coordInRange (normalizeTargetPoint (some (.num (.finite 30), .num (.finite 200)))).1 ∧
    coordInRange (normalizeTargetPoint (some (.num (.finite 30), .num (.finite 200)))).2 :=
  (normalizeTargetPoint_range (some (.num (.finite 30), .num (.finite 200)))
    (fun x y hxy => by
      injection hxy with h1
      injection h1 with hx hy
      exact ⟨hx ▸ (by intro h; injection h with h; injection h), hy ▸ (by intro h; injection h with h; injection h)⟩)).1

/-- C1: the ping-pong sampler of `generateFramesForImage` does not return to
its start state. For a 1000x1000 source with target zoom 1.8 and center
focus: the zoom is 1 at t=0 and reaches the full 1.8 at the midpoint, but at
t=1 the zoom is again 1.8 (the end state, not the start state), because the
backward segment both reverses the segment progress (`(1−t)/0.5`) and swaps
the start/end states — a double reversal that cancels out. Just after the
midpoint (t=0.501) the zoom has jumped back below 1.02, exhibiting the
discontinuity at t=0.5. The frontend (`app.jsx`), which server.js documents
itself as mirroring, reverses only the progress and has neither defect. -/
theorem pingPong_not_roundTrip :
    (motionAt 1000 1000 (9 / 5) ⟨50, 50⟩ "ping-pong" 0).1 = 1 ∧
    (motionAt 1000 1000 (9 / 5) ⟨50, 50⟩ "ping-pong" (1 / 2)).1 = 9 / 5 ∧
    (motionAt 1000 1000 (9 / 5) ⟨50, 50⟩ "ping-pong" (501 / 1000)).1 < 102 / 100 ∧
    (motionAt 1000 1000 (9 / 5) ⟨50, 50⟩ "ping-pong" 1).1 = 9 / 5 ∧
    motionAt 1000 1000 (9 / 5) ⟨50, 50⟩ "ping-pong" 1 ≠
      motionAt 1000 1000 (9 / 5) ⟨50, 50⟩ "ping-pong" 0 := by
  refine ⟨?_, ?_, ?_, ?_, ?_⟩ <;> with_unfolding_all decide

/-- C5, counterexample: the easing function produced by
`cubicBezier(0.42, 0, 0.58, 1)` is not monotonically non-decreasing on
`[0, 1]`. Near `x = 1 − 1/260000` the Newton solver's early-stop tolerance
changes from one iteration to zero iterations, and the eased value drops by
about `1.6e-11` while `x` increases. -/
theorem easeInOut_not_monotone :
    (0 : ℚ) ≤ 129999499987 / 130000000000 ∧
    (129999499987 / 130000000000 : ℚ) < 129999500013 / 130000000000 ∧
    (129999500013 / 130000000000 : ℚ) ≤ 1 ∧
    easeInOut (129999500013 / 130000000000) < easeInOut (129999499987 / 130000000000) := by
  refine ⟨by norm_num, by norm_num, by norm_num, ?_⟩
  with_unfolding_all decide

/-- C5, amended: for the standard ease-in-out control points
`(0.42, 0, 0.58, 1)` the easing function satisfies `ease(0) = 0` and
`ease(1) = 1` exactly (hence within 1e-6); it is deterministic (a pure
function of its argument, by construction of the embedding); and it is
monotonically non-decreasing across the uniform 101-point grid
`{k/100 : k = 0..100}` — though not on all of `[0, 1]`, where the Newton
early-stop tolerance produces isolated downward steps of order 1e-11. -/
theorem easeInOut_endpoints_and_grid_monotone :
    easeInOut 0 = 0 ∧ easeInOut 1 = 1 ∧
    ∀ k : Fin 100, easeInOut ((k : ℚ) / 100) ≤ easeInOut (((k : ℚ) + 1) / 100) := by
  refine ⟨by with_unfolding_all decide, by with_unfolding_all decide, ?_⟩
  set_option maxRecDepth 8000 in with_unfolding_all decide

/-- Helper: a clamp into `[0, hi]` with `0 ≤ hi` lands in `[0, hi]`. -/
theorem clamp_zero_mem (v hi : ℚ) (h : 0 ≤ hi) :
    0 ≤ clamp v 0 hi ∧ clamp v 0 hi ≤ hi :=
  ⟨le_min (le_max_right v 0) h, min_le_right _ _⟩

/-- Helper: a clamp into the empty-ish range `[0, 0]` returns 0. -/
theorem clamp_zero_zero (v : ℚ) : clamp v 0 0 = 0 :=
  min_eq_right (le_max_right v 0)

/-- Helper: the crop rectangle returned by `computeCropRect` always has
nonnegative `left`/`top`, with `left` at most `max 0 (naturalWidth − width)`
(and the analogue for `top`), for any transform, metrics and scale. -/
theorem computeCropRect_mem (t : Transform) (m : Metrics) (s : ℚ) :
    (0 ≤ (computeCropRect t m s).left ∧
      (computeCropRect t m s).left ≤ max 0 (m.naturalWidth - (computeCropRect t m s).width)) ∧
    (0 ≤ (computeCropRect t m s).top ∧
      (computeCropRect t m s).top ≤ max 0 (m.naturalHeight - (computeCropRect t m s).height)) := by
  simp only [computeCropRect]
  exact ⟨clamp_zero_mem _ _ (le_max_left 0 _), clamp_zero_mem _ _ (le_max_left 0 _)⟩

/-- C3, counterexample: for a portrait 720x1280 source at center focus and
zoom 1.5 (> 1), the crop rectangle returned by the projector has width
40960/27 ≈ 1517, so `left + width` exceeds `naturalWidth = 720`: the
rectangle is not fully inside the source raster. -/
theorem portraitCropZoomed_exceeds_source :
    portraitCropZoomed.left = 0 ∧ portraitCropZoomed.width = 40960 / 27 ∧
    ¬ (portraitCropZoomed.left + portraitCropZoomed.width ≤ portraitMetrics.naturalWidth) := by
  refine ⟨?_, ?_, ?_⟩ <;>
    norm_num [portraitCropZoomed, portraitMetrics, computeCropRect, getKenBurnsTransform,
      buildBaseMetrics, clamp, VIEWPORT_WIDTH, VIEWPORT_HEIGHT]

/-- C3, amended: for positive source dimensions, any focus point and any zoom
`s > 1`, the crop rectangle satisfies `0 ≤ left`, `0 ≤ top`,
`left + width ≤ max naturalWidth width` and
`top + height ≤ max naturalHeight height`: the clamp keeps the rectangle
inside the source whenever the crop dimensions do not themselves exceed the
source (which can happen on the axis not determining the aspect fit, e.g.
horizontally for a portrait image; 16:9 sources are always fully inside). -/
theorem cropRect_clamped_into_source (nw nh s : ℚ) (p : Point)
    (hnw : 0 < nw) (hnh : 0 < nh) (hs : 1 < s) :
    0 ≤ (computeCropRect (getKenBurnsTransform p (buildBaseMetrics nw nh) s)
      (buildBaseMetrics nw nh) s).left ∧
    0 ≤ (computeCropRect (getKenBurnsTransform p (buildBaseMetrics nw nh) s)
      (buildBaseMetrics nw nh) s).top ∧
    (computeCropRect (getKenBurnsTransform p (buildBaseMetrics nw nh) s)
        (buildBaseMetrics nw nh) s).left +
      (computeCropRect (getKenBurnsTransform p (buildBaseMetrics nw nh) s)
        (buildBaseMetrics nw nh) s).width ≤
      max nw (computeCropRect (getKenBurnsTransform p (buildBaseMetrics nw nh) s)
        (buildBaseMetrics nw nh) s).width ∧
    (computeCropRect (getKenBurnsTransform p (buildBaseMetrics nw nh) s)
        (buildBaseMetrics nw nh) s).top +
      (computeCropRect (getKenBurnsTransform p (buildBaseMetrics nw nh) s)
        (buildBaseMetrics nw nh) s).height ≤
      max nh (computeCropRect (getKenBurnsTransform p (buildBaseMetrics nw nh) s)
        (buildBaseMetrics nw nh) s).height := by
  obtain ⟨⟨hl0, hl1⟩, ⟨ht0, ht1⟩⟩ :=
    computeCropRect_mem (getKenBurnsTransform p (buildBaseMetrics nw nh) s)
      (buildBaseMetrics nw nh) s
  have hmw : (buildBaseMetrics nw nh).naturalWidth = nw := rfl
  have hmh : (buildBaseMetrics nw nh).naturalHeight = nh := rfl
  rw [hmw] at hl1
  rw [hmh] at ht1
  refine ⟨hl0, ht0, ?_, ?_⟩
  · calc (computeCropRect (getKenBurnsTransform p (buildBaseMetrics nw nh) s)
          (buildBaseMetrics nw nh) s).left +
        (computeCropRect (getKenBurnsTransform p (buildBaseMetrics nw nh) s)
          (buildBaseMetrics nw nh) s).width
        ≤ max 0 (nw - (computeCropRect (getKenBurnsTransform p (buildBaseMetrics nw nh) s)
            (buildBaseMetrics nw nh) s).width) +
          (computeCropRect (getKenBurnsTransform p (buildBaseMetrics nw nh) s)
            (buildBaseMetrics nw nh) s).width := by
          exact add_le_add_right hl1 _
      _ = max nw (computeCropRect (getKenBurnsTransform p (buildBaseMetrics nw nh) s)
            (buildBaseMetrics nw nh) s).width := by
          rw [← max_add_add_right, zero_add, sub_add_cancel, max_comm]
  · calc (computeCropRect (getKenBurnsTransform p (buildBaseMetrics nw nh) s)
          (buildBaseMetrics nw nh) s).top +
        (computeCropRect (getKenBurnsTransform p (buildBaseMetrics nw nh) s)
          (buildBaseMetrics nw nh) s).height
        ≤ max 0 (nh - (computeCropRect (getKenBurnsTransform p (buildBaseMetrics nw nh) s)
            (buildBaseMetrics nw nh) s).height) +
          (computeCropRect (getKenBurnsTransform p (buildBaseMetrics nw nh) s)
            (buildBaseMetrics nw nh) s).height := by
          exact add_le_add_right ht1 _
      _ = max nh (computeCropRect (getKenBurnsTransform p (buildBaseMetrics nw nh) s)
            (buildBaseMetrics nw nh) s).height := by
          rw [← max_add_add_right, zero_add, sub_add_cancel, max_comm]

/-- C3, witness: the amended bounds at a landscape 1280x720 source, zoom 2,
center focus. -/
theorem cropRect_clamped_into_source_witness :
    0 ≤ (computeCropRect (getKenBurnsTransform ⟨50, 50⟩ (buildBaseMetrics 1280 720) 2)
      (buildBaseMetrics 1280 720) 2).left ∧
    0 ≤ (computeCropRect (getKenBurnsTransform ⟨50, 50⟩ (buildBaseMetrics 1280 720) 2)
      (buildBaseMetrics 1280 720) 2).top ∧
    (computeCropRect (getKenBurnsTransform ⟨50, 50⟩ (buildBaseMetrics 1280 720) 2)
        (buildBaseMetrics 1280 720) 2).left +
      (computeCropRect (getKenBurnsTransform ⟨50, 50⟩ (buildBaseMetrics 1280 720) 2)
        (buildBaseMetrics 1280 720) 2).width ≤
      max 1280 (computeCropRect (getKenBurnsTransform ⟨50, 50⟩ (buildBaseMetrics 1280 720) 2)
        (buildBaseMetrics 1280 720) 2).width ∧
    (computeCropRect (getKenBurnsTransform ⟨50, 50⟩ (buildBaseMetrics 1280 720) 2)
        (buildBaseMetrics 1280 720) 2).top +
      (computeCropRect (getKenBurnsTransform ⟨50, 50⟩ (buildBaseMetrics 1280 720) 2)
        (buildBaseMetrics 1280 720) 2).height ≤
      max 720 (computeCropRect (getKenBurnsTransform ⟨50, 50⟩ (buildBaseMetrics 1280 720) 2)
        (buildBaseMetrics 1280 720) 2).height :=
  cropRect_clamped_into_source 1280 720 2 ⟨50, 50⟩ (by norm_num) (by norm_num) (by norm_num)

/-- Helper: when the crop width covers the whole source, the clamp range for
`left` collapses and `computeCropRect` returns `left = 0`. -/
theorem computeCropRect_left_eq_zero (t : Transform) (m : Metrics) (s : ℚ)
    (h : m.naturalWidth ≤ (computeCropRect t m s).width) :
    (computeCropRect t m s).left = 0 := by
  simp only [computeCropRect] at h ⊢
  rw [max_eq_left (sub_nonpos.mpr h), clamp_zero_zero]

/-- Helper: when the crop height covers the whole source, the clamp range for
`top` collapses and `computeCropRect` returns `top = 0`. -/
theorem computeCropRect_top_eq_zero (t : Transform) (m : Metrics) (s : ℚ)
    (h : m.naturalHeight ≤ (computeCropRect t m s).height) :
    (computeCropRect t m s).top = 0 := by
  simp only [computeCropRect] at h ⊢
  rw [max_eq_left (sub_nonpos.mpr h), clamp_zero_zero]

/-- C4, counterexample: for a portrait 720x1280 source at zoom 1, the crop
rectangle is not the full natural image bounds: its width is
`20480/9 ≈ 2275.6`, which exceeds `naturalWidth = 720` by far more than any
rounding (the projector divides the fixed 16:9 stage by the aspect-fit
scale, so the off-fit axis overshoots for every non-16:9 source). -/
theorem portraitCropUnzoomed_not_full_bounds :
    portraitCropUnzoomed.left = 0 ∧ portraitCropUnzoomed.top = 0 ∧
    portraitCropUnzoomed.height = 1280 ∧ portraitCropUnzoomed.width = 20480 / 9 ∧
    ¬ (portraitCropUnzoomed.width ≤ portraitMetrics.naturalWidth + 1) := by
  refine ⟨?_, ?_, ?_, ?_, ?_⟩ <;>
    norm_num [portraitCropUnzoomed, portraitMetrics, computeCropRect, getKenBurnsTransform,
      buildBaseMetrics, clamp, VIEWPORT_WIDTH, VIEWPORT_HEIGHT]

/-- C4, amended: for every source with positive dimensions and every focus
point, at zoom 1 the Motion Transform Resolver returns the identity transform
(zero translation at scale 1), and the Crop Rectangle Projector returns a
rectangle covering the full natural image bounds: `left = 0`, `top = 0`,
`width ≥ naturalWidth` and `height ≥ naturalHeight` — with equality of
width/height with the natural bounds exactly on the axis that determines the
aspect fit (so both only for 16:9 sources). -/
theorem zoom1_identity_and_coverage (nw nh : ℚ) (p : Point)
    (hnw : 0 < nw) (hnh : 0 < nh) :
    (getKenBurnsTransform p (buildBaseMetrics nw nh) 1).translateX = 0 ∧
    (getKenBurnsTransform p (buildBaseMetrics nw nh) 1).translateY = 0 ∧
    (computeCropRect (getKenBurnsTransform p (buildBaseMetrics nw nh) 1)
      (buildBaseMetrics nw nh) 1).left = 0 ∧
    (computeCropRect (getKenBurnsTransform p (buildBaseMetrics nw nh) 1)
      (buildBaseMetrics nw nh) 1).top = 0 ∧
    nw ≤ (computeCropRect (getKenBurnsTransform p (buildBaseMetrics nw nh) 1)
      (buildBaseMetrics nw nh) 1).width ∧
    nh ≤ (computeCropRect (getKenBurnsTransform p (buildBaseMetrics nw nh) 1)
      (buildBaseMetrics nw nh) 1).height := by
  have hb : 0 < min (VIEWPORT_WIDTH / nw) (VIEWPORT_HEIGHT / nh) :=
    lt_min (div_pos (by norm_num [VIEWPORT_WIDTH]) hnw)
      (div_pos (by norm_num [VIEWPORT_HEIGHT]) hnh)
  have hw : (computeCropRect (getKenBurnsTransform p (buildBaseMetrics nw nh) 1)
      (buildBaseMetrics nw nh) 1).width
      = VIEWPORT_WIDTH / min (VIEWPORT_WIDTH / nw) (VIEWPORT_HEIGHT / nh) := by
    norm_num [computeCropRect, buildBaseMetrics]
  have hh : (computeCropRect (getKenBurnsTransform p (buildBaseMetrics nw nh) 1)
      (buildBaseMetrics nw nh) 1).height
      = VIEWPORT_HEIGHT / min (VIEWPORT_WIDTH / nw) (VIEWPORT_HEIGHT / nh) := by
    norm_num [computeCropRect, buildBaseMetrics]
  have hWge : nw ≤ (computeCropRect (getKenBurnsTransform p (buildBaseMetrics nw nh) 1)
      (buildBaseMetrics nw nh) 1).width := by
    rw [hw, le_div_iff₀ hb]
    calc nw * min (VIEWPORT_WIDTH / nw) (VIEWPORT_HEIGHT / nh)
        ≤ nw * (VIEWPORT_WIDTH / nw) :=
          mul_le_mul_of_nonneg_left (min_le_left _ _) hnw.le
      _ = VIEWPORT_WIDTH := by field_simp
  have hHge : nh ≤ (computeCropRect (getKenBurnsTransform p (buildBaseMetrics nw nh) 1)
      (buildBaseMetrics nw nh) 1).height := by
    rw [hh, le_div_iff₀ hb]
    calc nh * min (VIEWPORT_WIDTH / nw) (VIEWPORT_HEIGHT / nh)
        ≤ nh * (VIEWPORT_HEIGHT / nh) :=
          mul_le_mul_of_nonneg_left (min_le_right _ _) hnh.le
      _ = VIEWPORT_HEIGHT := by field_simp
  refine ⟨?_, ?_, ?_, ?_, hWge, hHge⟩
  · norm_num [getKenBurnsTransform, buildBaseMetrics, VIEWPORT_WIDTH, VIEWPORT_HEIGHT]
  · norm_num [getKenBurnsTransform, buildBaseMetrics, VIEWPORT_WIDTH, VIEWPORT_HEIGHT]
  · exact computeCropRect_left_eq_zero _ _ _ hWge
  · exact computeCropRect_top_eq_zero _ _ _ hHge

/-- C4, witness: the amended theorem applied to a 16:9 source (1280x720) at
focus point (25, 75). -/
theorem zoom1_identity_and_coverage_witness :
    (getKenBurnsTransform ⟨25, 75⟩ (buildBaseMetrics 1280 720) 1).translateX = 0 ∧
    (getKenBurnsTransform ⟨25, 75⟩ (buildBaseMetrics 1280 720) 1).translateY = 0 ∧
    (computeCropRect (getKenBurnsTransform ⟨25, 75⟩ (buildBaseMetrics 1280 720) 1)
      (buildBaseMetrics 1280 720) 1).left = 0 ∧
    (computeCropRect (getKenBurnsTransform ⟨25, 75⟩ (buildBaseMetrics 1280 720) 1)
      (buildBaseMetrics 1280 720) 1).top = 0 ∧
    (1280 : ℚ) ≤ (computeCropRect (getKenBurnsTransform ⟨25, 75⟩ (buildBaseMetrics 1280 720) 1)
      (buildBaseMetrics 1280 720) 1).width ∧
    (720 : ℚ) ≤ (computeCropRect (getKenBurnsTransform ⟨25, 75⟩ (buildBaseMetrics 1280 720) 1)
      (buildBaseMetrics 1280 720) 1).height :=
  zoom1_identity_and_coverage 1280 720 ⟨25, 75⟩ (by norm_num) (by norm_num)

/-- C6: for every interpolated crop rectangle (arbitrary rational
coordinates) and every working raster with both dimensions at least 1, the
rounded and clamped extraction region of `generateFramesForImage` satisfies
`0 ≤ left`, `0 ≤ top`, `1 ≤ width`, `1 ≤ height`, `left + width ≤
workingWidth` and `top + height ≤ workingHeight`: the extract call is always
in bounds. -/
theorem extractRegion_in_bounds (r : Rect) (workingWidth workingHeight : ℤ)
    (hW : 1 ≤ workingWidth) (hH : 1 ≤ workingHeight) :
    0 ≤ (extractRegion r workingWidth workingHeight).1 ∧
    0 ≤ (extractRegion r workingWidth workingHeight).2.1 ∧
    1 ≤ (extractRegion r workingWidth workingHeight).2.2.1 ∧
    1 ≤ (extractRegion r workingWidth workingHeight).2.2.2 ∧
    (extractRegion r workingWidth workingHeight).1 +
      (extractRegion r workingWidth workingHeight).2.2.1 ≤ workingWidth ∧
    (extractRegion r workingWidth workingHeight).2.1 +
      (extractRegion r workingWidth workingHeight).2.2.2 ≤ workingHeight := by
  simp only [extractRegion, clampInt]
  omega

/-- C6, witness: the in-bounds theorem applied to a rectangle sticking far
out of a 100x50 working raster. -/
theorem extractRegion_in_bounds_witness :
    0 ≤ (extractRegion ⟨-5, 3/2, 1000000, 7⟩ 100 50).1 ∧
    0 ≤ (extractRegion ⟨-5, 3/2, 1000000, 7⟩ 100 50).2.1 ∧
    1 ≤ (extractRegion ⟨-5, 3/2, 1000000, 7⟩ 100 50).2.2.1 ∧
    1 ≤ (extractRegion ⟨-5, 3/2, 1000000, 7⟩ 100 50).2.2.2 ∧
    (extractRegion ⟨-5, 3/2, 1000000, 7⟩ 100 50).1 +
      (extractRegion ⟨-5, 3/2, 1000000, 7⟩ 100 50).2.2.1 ≤ 100 ∧
    (extractRegion ⟨-5, 3/2, 1000000, 7⟩ 100 50).2.1 +
      (extractRegion ⟨-5, 3/2, 1000000, 7⟩ 100 50).2.2.2 ≤ 50 :=
  extractRegion_in_bounds ⟨-5, 3/2, 1000000, 7⟩ 100 50 (by norm_num) (by norm_num)

/-- Helper: every offset emitted by the cross-fade accumulation loop is
nonnegative (each is `max 0 (running − fade)`). -/
theorem xfadeLoop_offsets_nonneg (plan : List PlanEntry) :
    ∀ (steps i : Nat) (running : ℚ),
      ∀ pr ∈ (xfadeLoop plan i steps running).1, 0 ≤ pr.2 := by
  intro steps
  induction steps with
  | zero =>
    intro i running pr hpr
    simp [xfadeLoop] at hpr
  | succ n ih =>
    intro i running pr hpr
    simp only [xfadeLoop, List.mem_cons] at hpr
    rcases hpr with h | h
    · rw [h]
      exact le_max_left _ _
    · exact ih (i + 1) _ pr h

/-- C7: the effective fade of `combineClips` for an adjacent pair with
positive durations is nonnegative, bounded by
`max 0 (min duration_i duration_{i+1} − 0.01)`, collapses to 0 whenever that
bound would be negative, and the resulting fade offsets — both the generic
`max 0 (running − fade)` and every offset actually emitted by the
accumulation loop — are never negative. -/
theorem effectiveFade_clamped (d1 d2 running : ℚ) (rawFade : JSNumber)
    (h1 : 0 < d1) (h2 : 0 < d2) :
    0 ≤ effectiveFade d1 d2 rawFade ∧
    effectiveFade d1 d2 rawFade ≤ max 0 (min d1 d2 - 1 / 100) ∧
    (min d1 d2 - 1 / 100 < 0 → effectiveFade d1 d2 rawFade = 0) ∧
    0 ≤ max 0 (running - effectiveFade d1 d2 rawFade) ∧
    (∀ (clipCount : Nat) (plan : List PlanEntry),
      ∀ pr ∈ (combineOffsets clipCount plan).1, 0 ≤ pr.2) := by
  obtain ⟨f0, hf⟩ : ∃ f0, effectiveFade d1 d2 rawFade
      = clamp f0 0 (max 0 (min d1 d2 - 1 / 100)) := by
    cases rawFade with
    | finite q => exact ⟨if 0 ≤ q then q else 1 / 2, rfl⟩
    | nan => exact ⟨1 / 2, rfl⟩
    | posInf => exact ⟨1 / 2, rfl⟩
    | negInf => exact ⟨1 / 2, rfl⟩
  rw [hf]
  refine ⟨(clamp_zero_mem _ _ (le_max_left _ _)).1,
    (clamp_zero_mem _ _ (le_max_left _ _)).2, ?_, le_max_left _ _, ?_⟩
  · intro hneg
    rw [max_eq_left hneg.le, clamp_zero_zero]
  · intro clipCount plan pr hpr
    simp only [combineOffsets] at hpr
    exact xfadeLoop_offsets_nonneg plan _ _ _ pr hpr

/-- C7, witness: the clamp theorem applied to two 6-second clips with a raw
fade of 100 seconds (the effective fade is forced below 5.99). -/
theorem effectiveFade_clamped_witness :
    0 ≤ effectiveFade 6 6 (.finite 100) ∧
    effectiveFade 6 6 (.finite 100) ≤ max 0 (min 6 6 - 1 / 100) ∧
    (min (6 : ℚ) 6 - 1 / 100 < 0 → effectiveFade 6 6 (.finite 100) = 0) ∧
    0 ≤ max 0 (6 - effectiveFade 6 6 (.finite 100)) ∧
    (∀ (clipCount : Nat) (plan : List PlanEntry),
      ∀ pr ∈ (combineOffsets clipCount plan).1, 0 ≤ pr.2) :=
  effectiveFade_clamped 6 6 6 (.finite 100) (by norm_num) (by norm_num)

end KenBurns
